import Mathlib

/-!
Verification development for the DGT beacon ingestion backend
(`src/backend`: `parser.py`, `worker.py`, `models.py`, `main.py`).

The Python modules are shallowly embedded: pure functions become Lean
functions, XML documents become structures holding exactly the element and
attribute texts the parsers query, machine floats become `Rat` produced by an
embedded decimal-string reader, timestamps become abstract `Nat` clocks, and
fallible Python code returns `Except PyErr`.
-/

/-- Python exceptions that the embedded code can raise.
`attributeError name` embeds `AttributeError` from reading attribute `name`
that an object does not carry; `valueError` embeds the `ValueError` raised by
`float()` on a malformed string. -/
inductive PyErr where
  | attributeError (name : String)
  | valueError
deriving DecidableEq, Repr

deriving instance DecidableEq for Except

/-- Python truthiness of an optional string (`lxml` `findtext` results are
either absent (`None`) or a string; the empty string is falsy). -/
def truthyOpt : Option String → Bool
  | none => false
  | some s => s != ""

/-- Value of a run of decimal digit characters. -/
def digitsVal (l : List Char) : Nat :=
  l.foldl (fun n c => 10 * n + (c.toNat - 48)) 0

/-- Exponent suffix of a Python float literal: empty, or `e`/`E`, an optional
sign, and a nonempty digit run consuming the rest of the string. Returns the
signed exponent, or `none` on a malformed suffix. -/
def expSuffix? (l : List Char) : Option Int :=
  match l with
  | [] => some 0
  | c :: r =>
    if c == 'e' || c == 'E' then
      let signed : Bool × List Char :=
        match r with
        | '-' :: rr => (true, rr)
        | '+' :: rr => (false, rr)
        | rr => (false, rr)
      let ds := signed.2.takeWhile Char.isDigit
      let rest := signed.2.dropWhile Char.isDigit
      if ds.isEmpty || !rest.isEmpty then none
      else some (if signed.1 then -(digitsVal ds : Int) else (digitsVal ds : Int))
    else none

/-- Assemble a float value from sign, integer digits, fraction digits and
exponent, as the exact rational the decimal literal denotes. -/
def floatVal (neg : Bool) (intV fracV fracLen : Nat) (e : Int) : Rat :=
  let mant : Int := intV * 10 ^ fracLen + fracV
  let mant : Int := if neg then -mant else mant
  if e ≥ 0 then mkRat (mant * 10 ^ e.toNat) (10 ^ fracLen)
  else mkRat mant (10 ^ fracLen * 10 ^ (-e).toNat)

/-- Embedding of the Python builtin `float()` on the decimal strings the feeds
carry: optional sign, digits with an optional fractional part, optional
exponent; the value is modelled as the exact rational the literal denotes
(binary rounding, surrounding whitespace, `inf` and `nan` are not modelled;
no claim depends on them). `none` embeds the raised `ValueError`. -/
def pyFloat? (s : String) : Option Rat :=
  let signed : Bool × List Char :=
    match s.data with
    | '-' :: r => (true, r)
    | '+' :: r => (false, r)
    | r => (false, r)
  let intDigits := signed.2.takeWhile Char.isDigit
  let rest1 := signed.2.dropWhile Char.isDigit
  match rest1 with
  | '.' :: r2 =>
    let fracDigits := r2.takeWhile Char.isDigit
    let rest2 := r2.dropWhile Char.isDigit
    if intDigits.isEmpty && fracDigits.isEmpty then none
    else
      match expSuffix? rest2 with
      | some e =>
        some (floatVal signed.1 (digitsVal intDigits) (digitsVal fracDigits)
          fracDigits.length e)
      | none => none
  | _ =>
    if intDigits.isEmpty then none
    else
      match expSuffix? rest1 with
      | some e => some (floatVal signed.1 (digitsVal intDigits) 0 0 e)
      | none => none

/-- Does the character list match the skeleton, where `D` in the skeleton
stands for one decimal digit and every other character stands for itself?
(`D` never occurs literally in the timestamp formats involved.) -/
def skelMatch : List Char → List Char → Bool
  | [], [] => true
  | 'D' :: ps, c :: cs => c.isDigit && skelMatch ps cs
  | p :: ps, c :: cs => p == c && skelMatch ps cs
  | _, _ => false

/-- Skeleton of `strptime`-format `%Y-%m-%dT%H:%M:%S`. -/
def isoSkeleton : List Char := "DDDD-DD-DDTDD:DD:DD".data

/-- Embedding of `parse_datetime` (parser.py lines 66-78). The resulting
datetime value is modelled as the accepted (timezone-stripped) timestamp
string itself: no claim inspects date components. The `strptime` check is
modelled as a digit-skeleton test with a 1-6 digit fractional part;
calendar-range validation (month at most 12, and so on) is not modelled, and a
failed check yields `none` exactly as the caught exception does. -/
def parse_datetime (value : Option String) : Option String :=
  match value with
  | none => none
  | some v =>
    if v == "" then none
    else
      let v1 := v.data.takeWhile (fun c => c != '+')
      if v1.any (fun c => c == '.') then
        match List.splitOn '.' v1 with
        | [a, b] =>
          if skelMatch isoSkeleton a
              && b.length ≥ 1 && b.length ≤ 6 && b.all Char.isDigit
          then some (String.mk v1) else none
        | _ => none
      else
        if skelMatch isoSkeleton v1 then some (String.mk v1) else none

/-- Embedding of `DIRECTION_MAP` (parser.py lines 56-63) as a lookup. -/
def directionLookup : String → Option String
  | "bothWays" => some "Ambos sentidos"
  | "both" => some "Ambos sentidos"
  | "positive" => some "Creciente"
  | "negative" => some "Decreciente"
  | "creciente" => some "Creciente"
  | "decreciente" => some "Decreciente"
  | _ => none

/-- Embedding of `DIRECTION_MAP.get(dir_val, dir_val)` where `dir_val` is a
`findtext` result: `None` is not a key, so it maps to itself. -/
def dirMapGet (v : Option String) : Option String :=
  match v with
  | none => none
  | some s => some ((directionLookup s).getD s)

/-- Canonical record produced by parsing, embedding the `ParsedBeacon`
dataclass (parser.py lines 14-28) with exactly its twelve declared fields;
the datetime field is the modelled timestamp string of `parse_datetime`. -/
structure ParsedBeacon where
  external_id : String
  lat : Rat
  lng : Rat
  incident_type : String
  road_name : Option String := none
  severity : Option String := none
  municipality : Option String := none
  province : Option String := none
  direction : Option String := none
  pk : Option String := none
  autonomous_community : Option String := none
  activation_time : Option String := none
deriving DecidableEq, Repr

/-- The attribute names the `ParsedBeacon` dataclass declares (parser.py
lines 14-28), in declaration order. Reading any other attribute of a
`ParsedBeacon` instance raises `AttributeError` (the worker additionally
assigns a dynamic `source` attribute at worker.py line 107, which nothing
reads back inside the sync). -/
def parsedBeaconFields : List String :=
  ["external_id", "lat", "lng", "incident_type", "road_name", "severity",
   "municipality", "province", "direction", "pk", "autonomous_community",
   "activation_time"]

/-! ## Road classification (parser.py lines 84-122) -/

/-- Python `str.strip()` on a character list: leading and trailing whitespace
removed (ASCII whitespace; the exotic unicode blanks Python also strips are
not modelled, no claim uses them). -/
def trimChars (l : List Char) : List Char :=
  ((l.dropWhile Char.isWhitespace).reverse.dropWhile Char.isWhitespace).reverse

/-- Python `str.upper()` on a character list (ASCII; non-ASCII case mapping is
not modelled, no claim uses it). -/
def upperChars (l : List Char) : List Char :=
  l.map Char.toUpper

/-- Python `str.lower()` on a character list (ASCII). -/
def lowerChars (l : List Char) : List Char :=
  l.map Char.toLower

/-- Does the list start with the given character? -/
def headIs (c : Char) : List Char → Bool
  | [] => false
  | x :: _ => x == c

/-- Does the list start with a decimal digit (regex `\d`)? -/
def headDigit : List Char → Bool
  | [] => false
  | x :: _ => x.isDigit

/-- Is the character an ASCII capital letter? On the uppercased road name this
is what the `re.IGNORECASE` class `[A-Z]` matches. -/
def isAZ (c : Char) : Bool := 65 ≤ c.toNat && c.toNat ≤ 90

/-- Does the list start with a character the `[A-Z]` class matches? -/
def headAZ : List Char → Bool
  | [] => false
  | x :: _ => isAZ x

/-- Embedding of the regex fragment `-?\d`: the greedy optional hyphen with
backtracking is the disjunction of consuming it and not consuming it. -/
def matchOptHyphenDigit (l : List Char) : Bool :=
  (headIs '-' l && headDigit (l.drop 1)) || headDigit l

/-- Embedding of `ROAD_PATTERNS[0]`, regex `A[P]?-?\d` anchored by
`re.match` at the start of the uppercased name; `[P]?` is again embedded as a
backtracking disjunction. -/
def matchAutopista (l : List Char) : Bool :=
  headIs 'A' l
    && ((headIs 'P' (l.drop 1) && matchOptHyphenDigit (l.drop 2))
        || matchOptHyphenDigit (l.drop 1))

/-- Embedding of `ROAD_PATTERNS[1]`, regex `N-?\d`. -/
def matchNacional (l : List Char) : Bool :=
  headIs 'N' l && matchOptHyphenDigit (l.drop 1)

/-- Embedding of `ROAD_PATTERNS[2]`, regex `[A-Z]{2}-?\d`. -/
def matchAutonomica (l : List Char) : Bool :=
  headAZ l && headAZ (l.drop 1) && matchOptHyphenDigit (l.drop 2)

/-- Embedding of `ROAD_PATTERNS[3]`, regex `[A-Z]-?\d`. -/
def matchProvincial (l : List Char) : Bool :=
  headAZ l && matchOptHyphenDigit (l.drop 1)

/-- Embedding of `classify_road_type` (parser.py lines 96-122): a falsy name
yields `None`; otherwise the name is stripped and uppercased, the four
patterns are tried in order, and a remaining name containing a letter is
`local`. -/
def classify_road_type (road_name : Option String) : Option String :=
  match road_name with
  | none => none
  | some s0 =>
    if s0 == "" then none
    else
      let l := upperChars (trimChars s0.data)
      if matchAutopista l then some "autopista"
      else if matchNacional l then some "nacional"
      else if matchAutonomica l then some "autonomica"
      else if matchProvincial l then some "provincial"
      else if !l.isEmpty && l.any Char.isAlpha then some "local"
      else none

/-! The specification side of claim C9: the ordered first-match rule list in
the specification's own words, stated over the uppercased name (its stated
case-insensitivity), with each "prefix plus digit, hyphen optional" rule
spelled out as the prefix, an optional hyphen, then a digit. Names matching
no rule and containing no letter are mapped to null (the rule list has no
rule for them, which is also what the code does). -/

/-- Consume an exact literal prefix, returning the remainder. -/
def afterLit : List Char → List Char → Option (List Char)
  | [], l => some l
  | p :: ps, c :: cs => if c == p then afterLit ps cs else none
  | _ :: _, [] => none

/-- Rule shape "literal prefix, then an optional hyphen, then a digit". -/
def prefixHyphenDigit (p : List Char) (l : List Char) : Bool :=
  match afterLit p l with
  | some r => (headIs '-' r && headDigit (r.drop 1)) || headDigit r
  | none => false

/-- Specification rule 1: prefix `A` or `AP` followed by a digit. -/
def specAutopista (l : List Char) : Bool :=
  prefixHyphenDigit ['A', 'P'] l || prefixHyphenDigit ['A'] l

/-- Specification rule 2: prefix `N` followed by a digit. -/
def specNacional (l : List Char) : Bool :=
  prefixHyphenDigit ['N'] l

/-- Specification rule 3: any two-letter prefix followed by a digit (letters
on the uppercased name, so `A`-`Z`). -/
def specAutonomica (l : List Char) : Bool :=
  headAZ l && headAZ (l.drop 1)
    && ((headIs '-' (l.drop 2) && headDigit (l.drop 3)) || headDigit (l.drop 2))

/-- Specification rule 4: any single-letter prefix followed by a digit. -/
def specProvincial (l : List Char) : Bool :=
  headAZ l && ((headIs '-' (l.drop 1) && headDigit (l.drop 2)) || headDigit (l.drop 1))

/-- The specification's ordered rule list, first match wins. -/
def classifySpecRules (name : Option String) : Option String :=
  match name with
  | none => none
  | some s =>
    if s == "" then none
    else
      let l := upperChars s.data
      if specAutopista l then some "autopista"
      else if specNacional l then some "nacional"
      else if specAutonomica l then some "autonomica"
      else if specProvincial l then some "provincial"
      else if l.any Char.isAlpha then some "local"
      else none

/-- The name, when present, carries no leading or trailing whitespace (the
difference between the code's stripped matching and the specification's rule
list, which is silent on whitespace). -/
def trimFixed : Option String → Prop
  | none => True
  | some s => trimChars s.data = s.data

/-! ## XML document model

The parsers are embedded over structures holding exactly the element texts,
attributes and sub-elements that `parse_datex_v36` and `parse_datex_v10`
query via `find`, `findall`, `findtext` and `get`. An absent element or
attribute is `none`; a present element with empty text is `some ""`
(the `findtext` conventions). -/

/-- A `pointCoordinates` element (a `to` or `from` point). -/
structure PointXml where
  latitude : Option String := none
  longitude : Option String := none
deriving DecidableEq, Repr

/-- An `extendedTpegNonJunctionPoint` Spanish-extension block (dialect A). -/
structure ExtPointXml where
  municipality : Option String := none
  province : Option String := none
  autonomousCommunity : Option String := none
deriving DecidableEq, Repr

/-- A dialect-A (`DATEX II v3.6`) `situationRecord`, with the fields
`parse_datex_v36` reads (parser.py lines 149-204). -/
structure SitRecordV36 where
  idAttr : Option String := none
  causeType : Option String := none
  creationTime : Option String := none
  roadName : Option String := none
  tpegDirection : Option String := none
  toPoint : Option PointXml := none
  fromPoint : Option PointXml := none
  extPoint : Option ExtPointXml := none
  referencePointDistance : Option String := none
deriving DecidableEq, Repr

/-- A dialect-A `situation` element: its `id` attribute, its
`overallSeverity` text, and its `situationRecord` children. -/
structure SituationV36 where
  idAttr : Option String := none
  overallSeverity : Option String := none
  records : List SitRecordV36 := []
deriving DecidableEq, Repr

/-- A `name` descriptor element of a dialect-B record. -/
structure NameXml where
  tpegDescriptorType : Option String := none
  descriptorValue : Option String := none
deriving DecidableEq, Repr

/-- A dialect-B (`DATEX II v1.0`, namespace-stripped) `situationRecord`,
with the fields `parse_datex_v10` reads (parser.py lines 258-324). -/
structure SitRecordV10 where
  idAttr : Option String := none
  typeAttr : Option String := none
  creationTime : Option String := none
  tpegDirection : Option String := none
  directionRelative : Option String := none
  toPoint : Option PointXml := none
  fromPoint : Option PointXml := none
  names : List NameXml := []
  roadNameValue : Option String := none
  roadNumber : Option String := none
  administrativeAreaValue : Option String := none
  referencePointDistance : Option String := none
deriving DecidableEq, Repr

/-- A dialect-B `situation` element. -/
structure SituationV10 where
  idAttr : Option String := none
  records : List SitRecordV10 := []
deriving DecidableEq, Repr

/-! ## Coordinate extraction (shared shape of parser.py lines 177-194 and
286-301) -/

/-- Coordinates of one point element: both texts must be truthy, then both
are converted with `float()`; a malformed number raises `ValueError` (only
`XMLSyntaxError` is caught by the parsers, so this propagates). -/
def pointCoordsE (pt : PointXml) : Except PyErr (Option (Rat × Rat)) :=
  match pt.latitude, pt.longitude with
  | some la, some lo =>
    if la != "" && lo != "" then
      match pyFloat? la, pyFloat? lo with
      | some x, some y => Except.ok (some (x, y))
      | _, _ => Except.error PyErr.valueError
    else Except.ok none
  | _, _ => Except.ok none

/-- Coordinates from an optional point element (absent point yields none). -/
def optPointCoordsE (pt : Option PointXml) : Except PyErr (Option (Rat × Rat)) :=
  match pt with
  | some p => pointCoordsE p
  | none => Except.ok none

/-- The record-level extraction: the `to` point is tried first and the
`from` point only if it yielded nothing. -/
def recordCoordsE (tp fp : Option PointXml) : Except PyErr (Option (Rat × Rat)) :=
  match optPointCoordsE tp with
  | Except.error e => Except.error e
  | Except.ok (some c) => Except.ok (some c)
  | Except.ok none => optPointCoordsE fp

/-- Both points fail the truthy-coordinate-text test, so the record carries
no usable coordinates (and no `float()` call is made). -/
def pointLacksCoords : Option PointXml → Bool
  | none => true
  | some pt => !(truthyOpt pt.latitude && truthyOpt pt.longitude)

/-- The record lacks coordinates entirely. -/
def recordLacksCoords (tp fp : Option PointXml) : Bool :=
  pointLacksCoords tp && pointLacksCoords fp

/-! ## Dialect A parser (parser.py lines 125-223) -/

/-- Municipality from the extension block, when present. -/
def extMun : Option ExtPointXml → Option String
  | none => none
  | some e => e.municipality

/-- Province from the extension block, when present. -/
def extProv : Option ExtPointXml → Option String
  | none => none
  | some e => e.province

/-- Autonomous community from the extension block, when present. -/
def extAC : Option ExtPointXml → Option String
  | none => none
  | some e => e.autonomousCommunity

/-- Processing of one dialect-A `situationRecord` (the body of the inner loop
of `parse_datex_v36`, parser.py lines 149-220): a record without a truthy
`causeType` is skipped (`continue`); a record whose points yield no
coordinates is skipped by the final `lat is not None` guard; otherwise one
canonical record is appended. `Except.ok none` is a skipped record;
`Except.error` is a raised `ValueError` from `float()`. -/
def processRecordV36 (sid : String) (sev : Option String) (r : SitRecordV36) :
    Except PyErr (Option ParsedBeacon) :=
  match r.causeType with
  | none => Except.ok none
  | some ct =>
    if ct == "" then Except.ok none
    else
      match recordCoordsE r.toPoint r.fromPoint with
      | Except.error e => Except.error e
      | Except.ok none => Except.ok none
      | Except.ok (some (la, lo)) =>
        Except.ok (some
          { external_id := r.idAttr.getD sid
            lat := la
            lng := lo
            incident_type := ct
            road_name := r.roadName
            severity := sev
            municipality := extMun r.extPoint
            province := extProv r.extPoint
            direction := dirMapGet r.tpegDirection
            pk := r.referencePointDistance
            autonomous_community := extAC r.extPoint
            activation_time := parse_datetime r.creationTime })

/-- Record list of one dialect-A situation, accumulating the emitted
canonical records in order. -/
def situationBeaconsV36 (sit : SituationV36) : Except PyErr (List ParsedBeacon) :=
  let sid := sit.idAttr.getD ""
  (sit.records.mapM (processRecordV36 sid sit.overallSeverity)).map
    (fun l => l.filterMap id)

/-- Embedding of `parse_datex_v36` over the already-parsed document tree (the
input bytes and the `XMLSyntaxError` branch, which returns an empty list to
the worker, are outside this model: the tree is the input). -/
def parse_datex_v36 (doc : List SituationV36) : Except PyErr (List ParsedBeacon) :=
  (doc.mapM situationBeaconsV36).map List.flatten

/-! ## Dialect B parser (parser.py lines 226-348) -/

/-- Does the second list start with the first? -/
def listStartsWith : List Char → List Char → Bool
  | [], _ => true
  | _ :: _, [] => false
  | p :: ps, c :: cs => p == c && listStartsWith ps cs

/-- Fuelled worker for `pyReplace`; the fuel is the input length, which
bounds the number of steps since every step consumes at least one character
(the patterns used are nonempty). -/
def pyReplaceF (pat rep : List Char) : Nat → List Char → List Char
  | _, [] => []
  | 0, l => l
  | Nat.succ f, c :: cs =>
    if listStartsWith pat (c :: cs) then
      rep ++ pyReplaceF pat rep f (List.drop (pat.length - 1) cs)
    else c :: pyReplaceF pat rep f cs

/-- Python `str.replace(pat, rep)` for a nonempty pattern: non-overlapping
occurrences replaced left to right. -/
def pyReplace (s pat rep : String) : String :=
  String.mk (pyReplaceF pat.data rep.data s.data.length s.data)

/-- The descriptor loop of `parse_datex_v10` (parser.py lines 304-311):
each `name` element can overwrite the road name, municipality or province
accumulator depending on its `tpegDescriptorType`. -/
def namesFold (names : List NameXml) : Option String × Option String × Option String :=
  names.foldl (fun acc ne =>
    match ne.tpegDescriptorType with
    | some "linkName" => (ne.descriptorValue, acc.2.1, acc.2.2)
    | some "townName" => (acc.1, ne.descriptorValue, acc.2.2)
    | some "other" => (acc.1, acc.2.1, ne.descriptorValue)
    | _ => acc) (none, none, none)

/-- Processing of one dialect-B `situationRecord` (the body of the inner
loop of `parse_datex_v10`, parser.py lines 258-345): only the final
`lat is not None` guard can skip a record; the incident type is derived from
the record's `type` attribute with the `_0:` prefix literal removed and
`Works` remapped to `roadMaintenance`, defaulting to `unknown`. -/
def processRecordV10 (sid : String) (r : SitRecordV10) :
    Except PyErr (Option ParsedBeacon) :=
  match recordCoordsE r.toPoint r.fromPoint with
  | Except.error e => Except.error e
  | Except.ok none => Except.ok none
  | Except.ok (some (la, lo)) =>
    let record_type := r.typeAttr.getD ""
    let nf := namesFold r.names
    let rn1 := if truthyOpt nf.1 then nf.1 else r.roadNameValue
    let rn2 := if truthyOpt rn1 then rn1 else r.roadNumber
    let prov := if truthyOpt nf.2.2 then nf.2.2 else r.administrativeAreaValue
    let d0 : Option String :=
      if truthyOpt r.tpegDirection then dirMapGet r.tpegDirection else none
    let dir :=
      if truthyOpt r.directionRelative && d0.isNone then dirMapGet r.directionRelative
      else d0
    let it0 := pyReplace (pyReplace record_type "_0:" "") "Works" "roadMaintenance"
    Except.ok (some
      { external_id := r.idAttr.getD sid
        lat := la
        lng := lo
        incident_type := if it0 == "" then "unknown" else it0
        road_name := rn2
        severity := none
        municipality := nf.2.1
        province := prov
        direction := dir
        pk := r.referencePointDistance
        autonomous_community := none
        activation_time := parse_datetime r.creationTime })

/-- Record list of one dialect-B situation. -/
def situationBeaconsV10 (sit : SituationV10) : Except PyErr (List ParsedBeacon) :=
  let sid := sit.idAttr.getD ""
  (sit.records.mapM (processRecordV10 sid)).map (fun l => l.filterMap id)

/-- Embedding of `parse_datex_v10` over the already-parsed, namespace-stripped
document tree. -/
def parse_datex_v10 (doc : List SituationV10) : Except PyErr (List ParsedBeacon) :=
  (doc.mapM situationBeaconsV10).map List.flatten

/-! ## Persisted model (models.py) and the runtime view of beacon objects -/

/-- Runtime view of a `Beacon` object (models.py lines 11-58). The typed
fields are the declared model fields; the synthetic `id` primary key is
omitted (no claim consults it) and timestamps are an abstract `Nat` clock.
The final two fields model Python attribute PRESENCE for the two names the
worker assigns (worker.py lines 161-162, 183-184) although `models.py`
declares no such column: `none` means the object carries no such attribute
(every row loaded from the table), `some v` means a plain in-memory attribute
holding `v` was assigned. -/
structure Beacon where
  external_id : String
  source : String
  lat : Rat
  lng : Rat
  incident_type : String
  road_name : Option String := none
  road_type : Option String := none
  severity : Option String := none
  municipality : Option String := none
  province : Option String := none
  direction : Option String := none
  pk : Option String := none
  autonomous_community : Option String := none
  activation_time : Option String := none
  is_active : Bool := true
  created_at : Nat := 0
  updated_at : Nat := 0
  deleted_at : Option Nat := none
  source_identification : Option (Option String) := none
  detailed_cause_type : Option (Option String) := none
deriving DecidableEq, Repr

/-- The column/field names the persisted `Beacon` model declares
(models.py: `BeaconBase` lines 11-27 plus `Beacon` lines 30-58). -/
def beaconTableColumns : List String :=
  ["external_id", "source", "lat", "lng", "incident_type", "road_name",
   "road_type", "severity", "municipality", "province", "direction", "pk",
   "autonomous_community", "activation_time", "id", "is_active", "created_at",
   "updated_at", "deleted_at"]

/-- The metric counts `sync_beacons_to_db` returns (worker.py lines 206-211). -/
structure SyncMetrics where
  in_feed : Nat
  created : Nat
  updated : Nat
  deactivated : Nat
deriving DecidableEq, Repr

/-- A `SyncLog` row (models.py lines 73-114), with its model defaults;
timestamps are abstracted to the `completed` flag (was `sync_completed_at`
assigned). Note the metric counts default to `0`, not to null. -/
structure SyncLog where
  source : String
  beacons_in_feed : Nat := 0
  beacons_created : Nat := 0
  beacons_updated : Nat := 0
  beacons_deactivated : Nat := 0
  success : Bool := true
  error_message : Option String := none
  completed : Bool := false
deriving DecidableEq, Repr

/-- The store query of worker.py lines 134-138: all beacons of this source
that are active. The store is the table in insertion order. -/
def activeFor (db : List Beacon) (src : String) : List Beacon :=
  db.filter (fun b => b.source == src && b.is_active)

/-- External ids of the active beacons of a source, in store order. -/
def activeExternalIds (db : List Beacon) (src : String) : List String :=
  (activeFor db src).map (fun b => b.external_id)

/-! ## The reconciliation engine, faithful embedding (worker.py lines 113-211)

`sync_beacons_to_db` reads `parsed.source_identification` (line 161 in the
update branch, line 183 in the create branch) and `parsed.detailed_cause_type`
(lines 162 and 184). The `ParsedBeacon` dataclass declares neither field
(`parsedBeaconFields`) and nothing ever assigns them, so in Python either
branch raises `AttributeError` on its first record; the raise happens before
`session.commit()` (line 200), so the enclosing session rolls every buffered
write back and the caller observes an unchanged store. -/

/-- Embedding of the Python expression `parsed.source_identification`:
`source_identification` is not among `parsedBeaconFields` and is never
assigned, so the read raises. -/
def parsedSourceIdentRead (_p : ParsedBeacon) : Except PyErr (Option String) :=
  Except.error (PyErr.attributeError "source_identification")

/-- Embedding of the Python expression `parsed.detailed_cause_type`:
likewise not declared and never assigned. -/
def parsedDetailedCauseRead (_p : ParsedBeacon) : Except PyErr (Option String) :=
  Except.error (PyErr.attributeError "detailed_cause_type")

/-- The upsert loop of worker.py lines 145-189 over the parsed records,
tallying the `(created, updated)` counters. Each iteration evaluates the two
undeclared attribute reads of its branch (update branch lines 161-162, create
branch lines 183-184); the preceding per-record field copies onto session
objects are buffered writes that the raise discards, so only the loop's
observable outcome — the raise, or the counters had the records carried the
fields — is embedded (see `sync_beacons_repaired` for the write logic). -/
def upsertLoop (existingIds : List String) :
    List ParsedBeacon → Except PyErr (Nat × Nat)
  | [] => Except.ok (0, 0)
  | p :: rest =>
    match parsedSourceIdentRead p with
    | Except.error e => Except.error e
    | Except.ok _ =>
      match parsedDetailedCauseRead p with
      | Except.error e => Except.error e
      | Except.ok _ =>
        match upsertLoop existingIds rest with
        | Except.error e => Except.error e
        | Except.ok (c, u) =>
          if existingIds.contains p.external_id then Except.ok (c, u + 1)
          else Except.ok (c + 1, u)

/-- Faithful embedding of `sync_beacons_to_db` (worker.py lines 113-211):
the store after the function's own `session.commit()` plus the returned
metrics, or the raised exception (store unchanged: nothing was committed). -/
def sync_beacons_to_db (src : String) (beacons : List ParsedBeacon)
    (db : List Beacon) (now : Nat) : Except PyErr (List Beacon × SyncMetrics) :=
  let current_ids := beacons.map (fun p => p.external_id)
  let existing := activeFor db src
  let existingIds := existing.map (fun b => b.external_id)
  match upsertLoop existingIds beacons with
  | Except.error e => Except.error e
  | Except.ok (created, updated) =>
    let deact := (existing.filter (fun b => !(current_ids.contains b.external_id))).length
    let newDb := db.map (fun b =>
      if b.source == src && b.is_active && !(current_ids.contains b.external_id)
      then { b with is_active := false, deleted_at := some now } else b)
    Except.ok (newDb,
      { in_feed := beacons.length, created := created, updated := updated,
        deactivated := deact })

/-! ## The reconciliation engine with the canonical-record slip repaired

The specification's canonical record (§3) carries `detailed_cause_type` and
`source_identification`; `parser.py`'s `ParsedBeacon` omits them — the slip
behind the raise above. To analyse the reconciliation algorithm itself,
`ParsedBeaconFull` is the canonical record with the two fields present, and
`sync_beacons_repaired` is worker.py lines 113-211 with `parsed.<field>`
reads resolved on it; it differs from `sync_beacons_to_db` in nothing else. -/

/-- The canonical record as the specification declares it: the twelve
`ParsedBeacon` fields plus the two the dataclass omits. -/
structure ParsedBeaconFull where
  external_id : String
  lat : Rat
  lng : Rat
  incident_type : String
  road_name : Option String := none
  severity : Option String := none
  municipality : Option String := none
  province : Option String := none
  direction : Option String := none
  pk : Option String := none
  autonomous_community : Option String := none
  activation_time : Option String := none
  source_identification : Option String := none
  detailed_cause_type : Option String := none
deriving DecidableEq, Repr

/-- The update branch (worker.py lines 148-165): every mutable field is
overwritten unconditionally and `updated_at` refreshed; `is_active`,
`created_at`, `deleted_at`, `external_id` and `source` are untouched. -/
def overwriteBeacon (b : Beacon) (p : ParsedBeaconFull) (now : Nat) : Beacon :=
  { b with
    lat := p.lat
    lng := p.lng
    incident_type := p.incident_type
    road_name := p.road_name
    road_type := classify_road_type p.road_name
    severity := p.severity
    municipality := p.municipality
    province := p.province
    direction := p.direction
    pk := p.pk
    autonomous_community := p.autonomous_community
    activation_time := p.activation_time
    source_identification := some p.source_identification
    detailed_cause_type := some p.detailed_cause_type
    updated_at := now }

/-- The create branch (worker.py lines 167-189): a fresh active beacon. -/
def newBeaconRow (src : String) (p : ParsedBeaconFull) (now : Nat) : Beacon :=
  { external_id := p.external_id
    source := src
    lat := p.lat
    lng := p.lng
    incident_type := p.incident_type
    road_name := p.road_name
    road_type := classify_road_type p.road_name
    severity := p.severity
    municipality := p.municipality
    province := p.province
    direction := p.direction
    pk := p.pk
    autonomous_community := p.autonomous_community
    activation_time := p.activation_time
    is_active := true
    created_at := now
    updated_at := now
    deleted_at := none
    source_identification := some p.source_identification
    detailed_cause_type := some p.detailed_cause_type }

/-- Index of the active beacon of this source and external id that the
`existing_map` dict holds: the comprehension at worker.py line 139 iterates
the active list in store order and later entries overwrite, so the map holds
the LAST such beacon; updates mutate that object in place. -/
def lastActiveIdx (db : List Beacon) (src id : String) : Option Nat :=
  ((db.enum.filter (fun ib =>
    ib.2.source == src && ib.2.is_active && ib.2.external_id == id)).getLast?).map
    (fun ib => ib.1)

/-- The last feed record carrying the given external id: successive feed
records with the same id overwrite the same mapped object, so its final
field values are the last such record's. -/
def lastFeedWith (beacons : List ParsedBeaconFull) (id : String) :
    Option ParsedBeaconFull :=
  (beacons.filter (fun p => p.external_id == id)).getLast?

/-- `sync_beacons_to_db` with the two canonical-record fields present
(see the section comment): update, create and deactivate exactly as
worker.py lines 131-211, in-place mutation rendered as a positional map over
the store plus appended creations. -/
def sync_beacons_repaired (src : String) (beacons : List ParsedBeaconFull)
    (db : List Beacon) (now : Nat) : List Beacon × SyncMetrics :=
  let current_ids := beacons.map (fun p => p.external_id)
  let existing := activeFor db src
  let existingIds := existing.map (fun b => b.external_id)
  let created := (beacons.filter (fun p => !(existingIds.contains p.external_id))).length
  let updated := (beacons.filter (fun p => existingIds.contains p.external_id)).length
  let deact := (existing.filter (fun b => !(current_ids.contains b.external_id))).length
  let base := db.enum.map (fun ib =>
    let b := ib.2
    if b.source == src && b.is_active then
      if !(current_ids.contains b.external_id) then
        { b with is_active := false, deleted_at := some now }
      else if lastActiveIdx db src b.external_id == some ib.1 then
        match lastFeedWith beacons b.external_id with
        | some p => overwriteBeacon b p now
        | none => b
      else b
    else b)
  let createdRows :=
    (beacons.filter (fun p => !(existingIds.contains p.external_id))).map
      (fun p => newBeaconRow src p now)
  (base ++ createdRows,
    { in_feed := beacons.length, created := created, updated := updated,
      deactivated := deact })

/-! ## The V16 predicate (main.py lines 21-39) -/

/-- Embedding of `is_v16_beacon`: `beacon.detailed_cause_type` is read first;
on an object that carries no such attribute — every beacon loaded from the
table, whose columns are `beaconTableColumns` — the read raises. -/
def is_v16_beacon (b : Beacon) : Except PyErr Bool :=
  match b.detailed_cause_type with
  | none => Except.error (PyErr.attributeError "detailed_cause_type")
  | some dct =>
    if dct == some "vehicleStuck" then Except.ok true
    else if b.incident_type != ""
        && String.mk (lowerChars b.incident_type.data) == "vehicleobstruction" then
      Except.ok true
    else Except.ok false

/-! ## The cycle coordinator (worker.py lines 214-259)

`run_sync_task` gathers the three `fetch_and_parse_source` tasks with
`return_exceptions=True`, then loops over the (source, result) pairs inside
one session. The network fetch is outside the model: the per-source outcome
after the gather is the input. -/

/-- Outcome of one `fetch_and_parse_source` task as the gather delivers it:
either a raised exception or a (possibly empty) record list. -/
inductive FetchOutcome where
  | exc (msg : String)
  | records (beacons : List ParsedBeacon)
deriving DecidableEq, Repr

/-- A printable message for a raised embedded exception (`str(result)`). -/
def pyErrMsg : PyErr → String
  | PyErr.attributeError n => n
  | PyErr.valueError => "ValueError"

/-- The post-fetch tail of `fetch_and_parse_source` (worker.py lines 97-110)
for a dialect-A source: a failed fetch (`fetch_xml` returned `None` — it
catches every exception itself, lines 71-82) yields an EMPTY RECORD LIST, not
an exception; a parser raise (only `XMLSyntaxError` is caught inside the
parser) propagates to the gather as an exception outcome. -/
def fetchAndParse36 (fetched : Option (List SituationV36)) : FetchOutcome :=
  match fetched with
  | none => FetchOutcome.records []
  | some doc =>
    match parse_datex_v36 doc with
    | Except.ok bs => FetchOutcome.records bs
    | Except.error e => FetchOutcome.exc (pyErrMsg e)

/-- The log row written in the exception branch (worker.py lines 240-246):
failure flag, message, completion stamp, counts left at their defaults. -/
def failLog (src msg : String) : SyncLog :=
  { source := src, success := false, error_message := some msg, completed := true }

/-- The log row written after a successful sync (worker.py lines 248-255). -/
def okLog (src : String) (m : SyncMetrics) : SyncLog :=
  { source := src
    beacons_in_feed := m.in_feed
    beacons_created := m.created
    beacons_updated := m.updated
    beacons_deactivated := m.deactivated
    completed := true }

/-- The source loop of `run_sync_task` (worker.py lines 232-257) with the
session's commit points made explicit. `committed` holds durably written log
rows; `pending` holds rows added to the session but not yet flushed by a
commit. `sync_beacons_to_db` commits internally (line 200), which also
commits any pending log rows; a raise inside it closes the session, rolling
the pending rows back, and propagates out of the loop — there is no handler.
The final `session.commit()` (line 257) flushes the remaining pending rows.
The result is the committed store and log plus the escaped exception, if
any. -/
def runSyncLoop (now : Nat) :
    List (String × FetchOutcome) → List Beacon → List SyncLog → List SyncLog →
    (List Beacon × List SyncLog) × Option PyErr
  | [], db, committed, pending => ((db, committed ++ pending), none)
  | (src, outcome) :: rest, db, committed, pending =>
    match outcome with
    | FetchOutcome.exc msg =>
      runSyncLoop now rest db committed (pending ++ [failLog src msg])
    | FetchOutcome.records beacons =>
      if beacons.isEmpty then runSyncLoop now rest db committed pending
      else
        match sync_beacons_to_db src beacons db now with
        | Except.error e => ((db, committed), some e)
        | Except.ok (db2, m) =>
          runSyncLoop now rest db2 (committed ++ pending) [okLog src m]

/-- Embedding of `run_sync_task` (worker.py lines 214-259) from the gather
onwards: one cycle over the per-source outcomes against the store. -/
def run_sync_task (items : List (String × FetchOutcome)) (db : List Beacon)
    (now : Nat) : (List Beacon × List SyncLog) × Option PyErr :=
  runSyncLoop now items db [] []

/-! ## Sample values used by the concrete theorems below -/

/-- A minimal parsed record (dataclass defaults for the optional fields). -/
def mkParsed (id : String) (la lo : Rat) : ParsedBeacon :=
  { external_id := id, lat := la, lng := lo, incident_type := "obstruction" }

/-- A minimal repaired canonical record. -/
def mkParsedFull (id : String) (la lo : Rat) : ParsedBeaconFull :=
  { external_id := id, lat := la, lng := lo, incident_type := "obstruction" }

/-- An active stored beacon as a previous cycle would have left it (model
defaults elsewhere; carries no dynamic attributes, like any row loaded from
the table). -/
def mkActiveBeacon (id src : String) (la lo : Rat) (t : Nat) : Beacon :=
  { external_id := id, source := src, lat := la, lng := lo,
    incident_type := "obstruction", created_at := t, updated_at := t }

/-! ## Claim theorems -/

/-- C1: the claim says that reconciling two consecutive snapshots F1 then F2
through `sync_beacons_to_db` as invoked by `run_sync_task` leaves the active
external-id set equal to F2, including empty F2. The code does neither part:
reconciling any nonempty snapshot raises `AttributeError` reading
`parsed.source_identification` before anything commits (first conjunct), and
for an empty snapshot `run_sync_task` skips reconciliation entirely
(`if result:`), so a beacon of F1 stays active after an empty F2 and no
deactivation or log write happens (second conjunct). -/
theorem C1_active_set_never_tracks_feed :
    sync_beacons_to_db "nacional" [mkParsed "ext-1" 40 (-3)] [] 0
      = Except.error (PyErr.attributeError "source_identification")
    ∧ run_sync_task [("nacional", FetchOutcome.records [])]
        [mkActiveBeacon "ext-1" "nacional" 40 (-3) 0] 1
      = (([mkActiveBeacon "ext-1" "nacional" 40 (-3) 0], []), none) :=
  ⟨rfl, rfl⟩

/-- C2: the claim says every (source, cycle) pair gets exactly one SyncLog
entry, with `success = false` and a diagnostic when fetch or parse fails.
In the code a failed fetch surfaces as an EMPTY record list
(`fetch_xml` catches every exception and returns `None`, which
`fetch_and_parse_source` turns into `[]` — first conjunct), and the
coordinator writes no log row at all for a source whose record list is empty:
a full cycle in which every fetch failed ends with an empty log (second
conjunct). -/
theorem C2_failed_fetch_writes_no_log :
    fetchAndParse36 none = FetchOutcome.records []
    ∧ run_sync_task
        [("nacional", fetchAndParse36 none),
         ("pais_vasco", FetchOutcome.records []),
         ("cataluna", FetchOutcome.records [])] [] 0
      = (([], []), none) :=
  ⟨rfl, rfl⟩

/-- C3: the claim says an exception during one source's reconciliation rolls
back, surfaces as that source's SyncLog entry, does not propagate out of
`run_sync_task`, and leaves the other sources reconciled and logged. The loop
has no handler: with a nonempty nacional feed the reconciliation raise
escapes the coordinator (`some` exception in the result), pais_vasco is never
reconciled (its stale beacon `old` stays active although its feed no longer
contains it) and no log row at all is committed. Only the rollback part
holds: the committed store is unchanged. -/
theorem C3_reconciliation_exception_escapes :
    run_sync_task
        [("nacional", FetchOutcome.records [mkParsed "n1" 40 (-3)]),
         ("pais_vasco", FetchOutcome.records [mkParsed "v1" 43 (-2)])]
        [mkActiveBeacon "old" "pais_vasco" 43 (-2) 0] 5
      = (([mkActiveBeacon "old" "pais_vasco" 43 (-2) 0], []),
         some (PyErr.attributeError "source_identification")) :=
  rfl

/-- C4: the claim says at most one active beacon ever carries a given
(external_id, source) pair, even when one snapshot contains two records with
the same external_id. On the reconciliation algorithm (the attribute slip
repaired, `sync_beacons_repaired`) a duplicated snapshot violates it: both
records miss the active map and both take the create branch, leaving two
active beacons with the pair ("dup", "nacional") in the store. (The
unrepaired code instead raises before reconciling anything — see C5.) -/
theorem C4_duplicate_feed_ids_break_uniqueness :
    ((sync_beacons_repaired "nacional"
        [mkParsedFull "dup" 40 (-3), mkParsedFull "dup" 41 2] [] 7).1.filter
      (fun b => b.is_active && b.external_id == "dup" && b.source == "nacional")).length = 2
    ∧ (sync_beacons_repaired "nacional"
        [mkParsedFull "dup" 40 (-3), mkParsedFull "dup" 41 2] [] 7).2
      = { in_feed := 2, created := 2, updated := 0, deactivated := 0 } :=
  ⟨rfl, rfl⟩

/-- C5: the claim says `sync_beacons_to_db` is total on parser-produced
record lists and that every attribute it reads — including
`source_identification` and `detailed_cause_type` — is a declared
`ParsedBeacon` field. Neither name is among the dataclass's declared fields
(second and third conjuncts), so the function raises `AttributeError` on any
nonempty record list, here a single minimal record against an empty active
set (first conjunct, the create branch read at worker.py line 183). -/
theorem C5_sync_not_total_on_parsed_records :
    sync_beacons_to_db "nacional" [mkParsed "X" 40 (-3)] [] 0
      = Except.error (PyErr.attributeError "source_identification")
    ∧ parsedBeaconFields.contains "source_identification" = false
    ∧ parsedBeaconFields.contains "detailed_cause_type" = false :=
  ⟨rfl, rfl, rfl⟩

/-- C7: the claim says reconciling the same feed twice leaves the active set
unchanged with the second run reporting created = 0, deactivated = 0,
updated = |F|. The code cannot run even once on a nonempty feed (first
conjunct: the attribute raise). On the repaired engine the claimed behavior
does hold, demonstrated on a concrete two-record feed: the second run
reports (in_feed 2, created 0, updated 2, deactivated 0) and the active
external-id list is unchanged (second and third conjuncts). -/
theorem C7_idempotence_unreachable_in_code :
    sync_beacons_to_db "cataluna" [mkParsed "c1" 41 2, mkParsed "c2" 41 3] [] 3
      = Except.error (PyErr.attributeError "source_identification")
    ∧ (sync_beacons_repaired "cataluna" [mkParsedFull "c1" 41 2, mkParsedFull "c2" 41 3]
        (sync_beacons_repaired "cataluna"
          [mkParsedFull "c1" 41 2, mkParsedFull "c2" 41 3] [] 1).1 2).2
      = { in_feed := 2, created := 0, updated := 2, deactivated := 0 }
    ∧ activeExternalIds
        (sync_beacons_repaired "cataluna" [mkParsedFull "c1" 41 2, mkParsedFull "c2" 41 3]
          (sync_beacons_repaired "cataluna"
            [mkParsedFull "c1" 41 2, mkParsedFull "c2" 41 3] [] 1).1 2).1 "cataluna"
      = activeExternalIds
          (sync_beacons_repaired "cataluna"
            [mkParsedFull "c1" 41 2, mkParsedFull "c2" 41 3] [] 1).1 "cataluna" :=
  ⟨rfl, rfl, rfl⟩

/-- C8: the claim says `is_v16_beacon` is true exactly when the detailed-cause
field equals `vehicleStuck` or the incident type is case-insensitively
`vehicleobstruction`, and that both fields it reads exist on the persisted
model. The predicate logic is right on any object that carries a
detailed-cause attribute (last conjunct), but `detailed_cause_type` (and
`source_identification`) is NOT a declared column of the Beacon model while
`incident_type` is (middle conjuncts), so on a beacon loaded from the table
the predicate raises `AttributeError` instead of computing (first conjunct). -/
theorem C8_predicate_logic_but_column_missing :
    is_v16_beacon (mkActiveBeacon "B1" "nacional" 40 (-3) 0)
      = Except.error (PyErr.attributeError "detailed_cause_type")
    ∧ beaconTableColumns.contains "detailed_cause_type" = false
    ∧ beaconTableColumns.contains "source_identification" = false
    ∧ beaconTableColumns.contains "incident_type" = true
    ∧ ∀ (b : Beacon) (v : Option String),
        is_v16_beacon { b with detailed_cause_type := some v }
          = Except.ok ((v == some "vehicleStuck")
              || (b.incident_type != ""
                  && String.mk (lowerChars b.incident_type.data) == "vehicleobstruction")) := by
  refine ⟨rfl, rfl, rfl, rfl, ?_⟩
  intro b v
  cases hv : (v == some "vehicleStuck") with
  | true => simp [is_v16_beacon, hv]
  | false =>
    cases hc : (b.incident_type != ""
        && String.mk (lowerChars b.incident_type.data) == "vehicleobstruction") with
    | true => simp [is_v16_beacon, hv, hc]
    | false => simp [is_v16_beacon, hv, hc]

/-- A point whose truthy-coordinate test fails yields no coordinates and no
`float()` call. -/
theorem pointLacksCoords_none (pt : Option PointXml)
    (h : pointLacksCoords pt = true) : optPointCoordsE pt = Except.ok none := by
  cases pt with
  | none => rfl
  | some p =>
    obtain ⟨pla, plo⟩ := p
    cases pla with
    | none => rfl
    | some la =>
      cases plo with
      | none => rfl
      | some lo =>
        simp only [pointLacksCoords, truthyOpt] at h
        have h2 : (la != "" && lo != "") = false := by
          revert h
          cases (la != "" && lo != "") <;> simp
        simp only [optPointCoordsE, pointCoordsE]
        simp [h2]

/-- A record whose points both lack coordinates extracts nothing. -/
theorem recordLacksCoords_none (tp fp : Option PointXml)
    (h : recordLacksCoords tp fp = true) : recordCoordsE tp fp = Except.ok none := by
  unfold recordLacksCoords at h
  simp only [Bool.and_eq_true] at h
  unfold recordCoordsE
  rw [pointLacksCoords_none tp h.1, pointLacksCoords_none fp h.2]

/-- C6 counterexample: the claim says a parsed record that lacks an
external_id is discarded. It is not: a dialect-A record with no `id`
attribute inside a situation with no `id` attribute is still emitted, with
`external_id` defaulted to the empty string (via `record.get("id",
situation_id)` over `situation.get("id", "")`). -/
theorem C6_counterexample_missing_id_kept :
    parse_datex_v36
        [{ idAttr := none, overallSeverity := none,
           records := [{ causeType := some "obstruction",
                         fromPoint := some { latitude := some "40.0",
                                             longitude := some "-3.0" } }] }]
      = Except.ok [{ external_id := "", lat := 40, lng := -3,
                     incident_type := "obstruction" }] := by
  decide

/-- C6 (amended): in both dialects a record that lacks coordinates is
silently discarded — the record yields no canonical record and no error, so
the rest of the source parses normally — but a record that lacks an `id`
attribute is NOT discarded: its external_id defaults to the enclosing
situation's id (and to the empty string when that is also absent). -/
theorem C6_missing_field_handling :
    (∀ (sid : String) (sev : Option String) (r : SitRecordV36),
      recordLacksCoords r.toPoint r.fromPoint = true →
      processRecordV36 sid sev r = Except.ok none)
    ∧ (∀ (sid : String) (r : SitRecordV10),
      recordLacksCoords r.toPoint r.fromPoint = true →
      processRecordV10 sid r = Except.ok none)
    ∧ (∀ (sid : String) (sev : Option String) (r : SitRecordV36) (b : ParsedBeacon),
      r.idAttr = none → processRecordV36 sid sev r = Except.ok (some b) →
      b.external_id = sid) := by
  refine ⟨?_, ?_, ?_⟩
  · intro sid sev r h
    unfold processRecordV36
    rw [recordLacksCoords_none r.toPoint r.fromPoint h]
    cases r.causeType with
    | none => rfl
    | some ct =>
      by_cases hct : ct == ""
      · simp [hct]
      · simp [hct]
  · intro sid r h
    unfold processRecordV10
    rw [recordLacksCoords_none r.toPoint r.fromPoint h]
  · intro sid sev r b hid h
    unfold processRecordV36 at h
    cases hct : r.causeType with
    | none => rw [hct] at h; exact absurd h (by simp)
    | some ct =>
      rw [hct] at h
      by_cases hempty : ct == ""
      · simp [hempty] at h
      · simp only [hempty, if_false, Bool.false_eq_true] at h
        cases hco : recordCoordsE r.toPoint r.fromPoint with
        | error e => rw [hco] at h; exact absurd h (by simp)
        | ok co =>
          rw [hco] at h
          cases co with
          | none => exact absurd h (by simp)
          | some c =>
            simp only [Except.ok.injEq, Option.some.injEq] at h
            rw [← h, hid]
            rfl

/-- Instantiation of C6's amended theorem at concrete inputs: a dialect-A and
a dialect-B record with a `to` point lacking a longitude text and no `from`
point are discarded, and a concrete emitted record with no `id` attribute
inherits the situation id. -/
theorem C6_witness :
    processRecordV36 "S1" none
        { causeType := some "obstruction",
          toPoint := some { latitude := some "40.0" } } = Except.ok none
    ∧ processRecordV10 "S2"
        { typeAttr := some "Accident",
          toPoint := some { latitude := some "43.0" } } = Except.ok none
    ∧ ({ external_id := "SID", lat := 1, lng := 2,
         incident_type := "x" } : ParsedBeacon).external_id = "SID" := by
  refine ⟨?_, ?_, ?_⟩
  · exact C6_missing_field_handling.1 "S1" none
      { causeType := some "obstruction", toPoint := some { latitude := some "40.0" } }
      (by decide)
  · exact C6_missing_field_handling.2.1 "S2"
      { typeAttr := some "Accident", toPoint := some { latitude := some "43.0" } }
      (by decide)
  · exact C6_missing_field_handling.2.2 "SID" none
      { idAttr := none, causeType := some "x",
        fromPoint := some { latitude := some "1.0", longitude := some "2.0" } }
      { external_id := "SID", lat := 1, lng := 2, incident_type := "x" }
      rfl (by decide)

/-- C10 counterexample: the claim says every dialect-A situation record with
no `to` point and a coordinate-bearing `from` point yields a canonical record
with those coordinates. A record without a truthy `causeType` is skipped by
the `continue` at parser.py line 155 before coordinates are even considered,
so this record emits nothing at all. -/
theorem C10_counterexample_no_cause_type :
    parse_datex_v36
        [{ idAttr := some "S", overallSeverity := none,
           records := [{ idAttr := some "R1", causeType := none,
                         fromPoint := some { latitude := some "40.0",
                                             longitude := some "-3.0" } }] }]
      = Except.ok [] := by
  decide

/-- C10 (amended): for every dialect-A situation record that carries a cause
type (so that a canonical record is produced at all), has no `to` point and
has a `from` point whose latitude and longitude texts are nonempty and
numeric, the emitted canonical record carries exactly the `from` point's
coordinates; and when a `to` point with nonempty numeric coordinate texts is
present, its coordinates are used instead, whatever the `from` point holds. -/
theorem C10_coordinate_fallback :
    (∀ (sid : String) (sev : Option String) (r : SitRecordV36)
        (ct la lo : String) (x y : Rat),
      r.causeType = some ct → ct ≠ "" →
      r.toPoint = none →
      r.fromPoint = some { latitude := some la, longitude := some lo } →
      la ≠ "" → lo ≠ "" → pyFloat? la = some x → pyFloat? lo = some y →
      ∃ b : ParsedBeacon,
        processRecordV36 sid sev r = Except.ok (some b) ∧ b.lat = x ∧ b.lng = y)
    ∧ (∀ (sid : String) (sev : Option String) (r : SitRecordV36)
        (ct la lo : String) (x y : Rat),
      r.causeType = some ct → ct ≠ "" →
      r.toPoint = some { latitude := some la, longitude := some lo } →
      la ≠ "" → lo ≠ "" → pyFloat? la = some x → pyFloat? lo = some y →
      ∃ b : ParsedBeacon,
        processRecordV36 sid sev r = Except.ok (some b) ∧ b.lat = x ∧ b.lng = y) := by
  constructor
  · intro sid sev r ct la lo x y hct hne htp hfp hla hlo hx hy
    have hco : recordCoordsE r.toPoint r.fromPoint = Except.ok (some (x, y)) := by
      rw [htp, hfp]
      simp only [recordCoordsE, optPointCoordsE, pointCoordsE]
      simp [hla, hlo, hx, hy]
    unfold processRecordV36
    rw [hct, hco]
    simp only [hne, if_neg, beq_iff_eq]
    exact ⟨_, rfl, rfl, rfl⟩
  · intro sid sev r ct la lo x y hct hne htp hla hlo hx hy
    have hco : recordCoordsE r.toPoint r.fromPoint = Except.ok (some (x, y)) := by
      rw [htp]
      simp only [recordCoordsE, optPointCoordsE, pointCoordsE]
      simp [hla, hlo, hx, hy]
    unfold processRecordV36
    rw [hct, hco]
    simp only [hne, if_neg, beq_iff_eq]
    exact ⟨_, rfl, rfl, rfl⟩

/-- Instantiation of C10's amended theorem at concrete records: a `from`-only
record yields (40, -3); a record with both points yields the `to` point's
(41.5, 2). -/
theorem C10_witness :
    (∃ b : ParsedBeacon,
      processRecordV36 "S" none
          { causeType := some "obstruction",
            fromPoint := some { latitude := some "40.0", longitude := some "-3.0" } }
        = Except.ok (some b) ∧ b.lat = 40 ∧ b.lng = -3)
    ∧ (∃ b : ParsedBeacon,
      processRecordV36 "S" none
          { causeType := some "obstruction",
            toPoint := some { latitude := some "41.5", longitude := some "2.0" },
            fromPoint := some { latitude := some "40.0", longitude := some "-3.0" } }
        = Except.ok (some b) ∧ b.lat = mkRat 83 2 ∧ b.lng = 2) := by
  constructor
  · exact C10_coordinate_fallback.1 "S" none
      { causeType := some "obstruction",
        fromPoint := some { latitude := some "40.0", longitude := some "-3.0" } }
      "obstruction" "40.0" "-3.0" 40 (-3)
      rfl (by decide) rfl rfl (by decide) (by decide) (by decide) (by decide)
  · exact C10_coordinate_fallback.2 "S" none
      { causeType := some "obstruction",
        toPoint := some { latitude := some "41.5", longitude := some "2.0" },
        fromPoint := some { latitude := some "40.0", longitude := some "-3.0" } }
      "obstruction" "41.5" "2.0" (mkRat 83 2) 2
      rfl (by decide) rfl (by decide) (by decide) (by decide) (by decide)

/-- The specification's `A`/`AP` rule and the compiled regex `A[P]?-?\d`
agree on every character list. -/
theorem specAutopista_eq_match (l : List Char) : specAutopista l = matchAutopista l := by
  cases l with
  | nil => rfl
  | cons a r =>
    cases r with
    | nil =>
      simp only [specAutopista, matchAutopista, prefixHyphenDigit, afterLit,
        headIs, headDigit, matchOptHyphenDigit, List.drop_succ_cons,
        List.drop_zero, List.drop_nil]
      cases h : a == 'A' <;> simp [h]
    | cons b r2 =>
      simp only [specAutopista, matchAutopista, prefixHyphenDigit, afterLit,
        headIs, headDigit, matchOptHyphenDigit, List.drop_succ_cons,
        List.drop_zero]
      cases ha : a == 'A'
      · simp [ha]
      · cases hb : b == 'P' <;> simp [ha, hb]

/-- The specification's `N` rule and the regex `N-?\d` agree. -/
theorem specNacional_eq_match (l : List Char) : specNacional l = matchNacional l := by
  cases l with
  | nil => rfl
  | cons a r =>
    simp only [specNacional, matchNacional, prefixHyphenDigit, afterLit,
      headIs, matchOptHyphenDigit, List.drop_succ_cons, List.drop_zero]
    cases h : a == 'N' <;> simp [h]

/-- The specification's two-letter rule and the regex `[A-Z]{2}-?\d` agree. -/
theorem specAutonomica_eq_match (l : List Char) :
    specAutonomica l = matchAutonomica l := by
  simp [specAutonomica, matchAutonomica, matchOptHyphenDigit, List.drop_drop]

/-- The specification's single-letter rule and the regex `[A-Z]-?\d` agree. -/
theorem specProvincial_eq_match (l : List Char) :
    specProvincial l = matchProvincial l := by
  simp [specProvincial, matchProvincial, matchOptHyphenDigit, List.drop_drop]

/-- On a name without leading or trailing whitespace, `classify_road_type`
computes exactly the specification's ordered rule list. -/
theorem classify_matches_spec_rules (name : Option String) (h : trimFixed name) :
    classify_road_type name = classifySpecRules name := by
  cases name with
  | none => rfl
  | some s =>
    have ht : trimChars s.data = s.data := h
    simp only [classify_road_type, classifySpecRules]
    by_cases hs : (s == "") = true
    · simp [hs]
    · rw [Bool.not_eq_true] at hs
      have hs2 : s ≠ "" := by
        intro he
        rw [he] at hs
        simp at hs
      have hd : s.data ≠ [] := by
        intro hnil
        exact hs2 (String.ext (by rw [hnil]))
      have hne : (upperChars s.data).isEmpty = false := by
        unfold upperChars
        cases hcase : s.data with
        | nil => exact absurd hcase hd
        | cons c t => simp
      rw [ht]
      simp only [hs, Bool.false_eq_true, if_false,
        specAutopista_eq_match, specNacional_eq_match,
        specAutonomica_eq_match, specProvincial_eq_match, hne]
      simp

/-- C9: `classify_road_type` implements the specification's ordered
first-match rule list — on any whitespace-trimmed name it equals the rule
list verbatim (`classifySpecRules`) — and the seven literal cases evaluate as
claimed. -/
theorem C9_road_classification :
    (∀ name : Option String, trimFixed name →
      classify_road_type name = classifySpecRules name)
    ∧ classify_road_type (some "A-6") = some "autopista"
    ∧ classify_road_type (some "AP-7") = some "autopista"
    ∧ classify_road_type (some "N-340") = some "nacional"
    ∧ classify_road_type (some "BI-20") = some "autonomica"
    ∧ classify_road_type (some "C-12") = some "provincial"
    ∧ classify_road_type (some "Calle Mayor") = some "local"
    ∧ classify_road_type (some "") = none
    ∧ classify_road_type none = none := by
  refine ⟨fun name h => classify_matches_spec_rules name h,
    ?_, ?_, ?_, ?_, ?_, ?_, rfl, rfl⟩ <;> decide

/-- Instantiation of C9's general conjunct at a concrete name. -/
theorem C9_witness :
    classify_road_type (some "N-II") = classifySpecRules (some "N-II") :=
  C9_road_classification.1 (some "N-II")
    (by decide : trimChars "N-II".data = "N-II".data)
